import Mathlib

/-!
Verification of the poll-diff-notify core of tg-chat-notify (src/index.js).

The program polls one HTTP endpoint, extracts the first element of the
`data` array of the JSON body, compares its `id` field to the previously
stored one with JavaScript strict inequality, sends a Telegram message
when the id changed, and then unconditionally stores the new document and
its id.  The embedding below translates `pollHttpEndpoint`,
`sendTelegramMessage`, the `/status` command handler and the control flow
of `main` into Lean, with the mutable module-level variables
`lastResponseId` / `lastResponse` made explicit as an `ObservedState`
record that each cycle consumes and returns.
-/

namespace TgNotify

/-- JavaScript primitive values as they occur in the polled JSON payload.
The distinction between `null` and `undefined` matters: the source
initialises `lastResponseId = null` (src/index.js line 59), and reading a
missing `id` property yields `undefined`, and JavaScript strict comparison
distinguishes the two. -/
inductive JSVal where
  | vnull
  | vundef
  | vstr (s : String)
  | vnum (n : Int)
deriving DecidableEq, Repr

/-- A candidate document: the first element of the response body's `data`
array.  `id` is the field read at src/index.js line 125 (reading an absent
property gives `JSVal.vundef`); `value` stands for all the other payload
fields, which the change detection never inspects. -/
structure Doc where
  id : JSVal
  value : JSVal
deriving DecidableEq, Repr

/-- The JSON body of a 200 response, as used at src/index.js line 122:
`response.data.data[0]`.  `data = none` models a body without the `data`
array (property access yields `undefined`). -/
structure ResponseBody where
  data : Option (List Doc)
deriving DecidableEq, Repr

/-- Outcome of the `axios.get` call in `pollHttpEndpoint`:
a response (whose status is checked against 200 at line 114), or a thrown
transport error (network failure, timeout) landing in the catch block at
lines 143-146. -/
inductive FetchResult where
  | success (body : ResponseBody)
  | httpError (status : Nat)
  | transportError
deriving DecidableEq, Repr

/-- The mutable module-level state of src/index.js lines 59-60:
`let lastResponseId = null; let lastResponse = null;`.
`lastResponseId` is a plain JavaScript value (initially `null`), so a
committed document id of `null` is indistinguishable from the initial
state.  `lastResponse` holds the whole stored document. -/
structure ObservedState where
  lastResponseId : JSVal
  lastResponse : Option Doc
deriving DecidableEq, Repr

/-- The state at process start: both variables are `null`. -/
def initialState : ObservedState := ⟨JSVal.vnull, none⟩

/-- Summary of how one poll cycle ended, for logging and for the results
of the `/check` command. -/
inductive CycleOutcome where
  | changed
  | unchanged
  | error
deriving DecidableEq, Repr

/-- Result of one execution of `pollHttpEndpoint`: the observed state
after the cycle, the outcome tag, and whether `sendTelegramMessage` was
invoked during the cycle. -/
structure CycleResult where
  state : ObservedState
  outcome : CycleOutcome
  notified : Bool
deriving DecidableEq, Repr

/-- Extraction `response.data.data[0]` followed by the `.id` read:
returns the candidate document when it exists.  When the `data` field is
absent (`none`) the indexing throws a TypeError, and when the array is
empty the element is `undefined` so the `.id` read at line 125 throws;
both throws are caught by the catch block, so the cycle produces no
candidate. -/
def extractCandidate (body : ResponseBody) : Option Doc :=
  match body.data with
  | none => none
  | some [] => none
  | some (d :: _) => some d

/-- Translation of `pollHttpEndpoint` (src/index.js lines 104-147) acting
on an explicit state.  `sendOk` is the boolean returned by
`sendTelegramMessage` when the cycle invokes it; the source awaits that
call and discards its result, which is why `sendOk` does not influence
the returned state.  A thrown error anywhere in the try block (transport
failure, or the TypeError from a malformed body) reaches the catch block,
which only logs: the state is left untouched and no message is sent. -/
def pollHttpEndpoint (st : ObservedState) (fetch : FetchResult) (sendOk : Bool) :
    CycleResult :=
  match fetch with
  | .httpError _ => ⟨st, .error, false⟩
  | .transportError => ⟨st, .error, false⟩
  | .success body =>
    match extractCandidate body with
    | none => ⟨st, .error, false⟩
    | some d =>
      if d.id != st.lastResponseId then
        ⟨⟨d.id, some d⟩, .changed, true⟩
      else
        ⟨⟨d.id, some d⟩, .unchanged, false⟩

/-- Translation of `sendTelegramMessage` (src/index.js lines 67-81).
`botInitialized` models `bot !== null` (the bot exists exactly when
`TELEGRAM_BOT_TOKEN` was set), `chatId` models `config.TELEGRAM_CHAT_ID`,
and `apiOk` tells whether `bot.api.sendMessage` succeeds; when it throws,
the catch block returns `false`.  The function is total: it never lets an
exception escape. -/
def sendTelegramMessage (botInitialized : Bool) (chatId : Option String)
    (apiOk : Bool) : Bool :=
  if !botInitialized || chatId.isNone then false
  else apiOk

/-- The configuration object of src/index.js lines 40-48, restricted to
the fields the claims mention.  Every field comes from the environment;
`apiUrl`, `telegramBotToken` and `telegramChatId` are absent
(`undefined`) when the corresponding variable is unset. -/
structure Config where
  apiUrl : Option String
  telegramBotToken : Option String
  telegramChatId : Option String
  requestInterval : Nat
  notifyOnChangeOnly : Bool
deriving DecidableEq, Repr

/-- The externally visible startup actions of `main` together with the
module initialisation (src/index.js lines 50-56 and 207-228). -/
inductive StartupAction where
  | botStart
  | poll
  | scheduleSetup
deriving DecidableEq, Repr

/-- Translation of the control flow of `main` (src/index.js lines
207-228): when a bot token is present the bot is set up and started;
then `pollHttpEndpoint` is awaited once; then the recurring schedule is
installed.  `main` contains no test of `config.API_URL`, so the list of
actions it performs does not depend on whether a target URL was
configured. -/
def mainTrace (cfg : Config) : List StartupAction :=
  (if cfg.telegramBotToken.isSome then [StartupAction.botStart] else [])
    ++ [StartupAction.poll, StartupAction.scheduleSetup]

/-- The last-update line of the `/status` reply (src/index.js line 184):
the source renders `new Date().toLocaleString()` — the clock value at the
moment the command is handled — when `lastResponse` is non-null, and the
string `No data retrieved yet` otherwise. -/
inductive LastUpdateField where
  | shown (t : Nat)
  | noDataYet
deriving DecidableEq, Repr

/-- The data rendered by the `/status` command handler (src/index.js
lines 177-188). -/
structure StatusSnapshot where
  interval : Nat
  apiUrl : Option String
  notifyOnChangeOnly : Bool
  lastUpdate : LastUpdateField
deriving DecidableEq, Repr

/-- Translation of the `/status` command handler (src/index.js lines
177-188).  `now` is the clock at the moment the handler runs, because the
handler calls `new Date()` there; no timestamp of any past poll is stored
anywhere in the program, so `now` is all the handler can show.  The
handler assigns neither `lastResponseId` nor `lastResponse`, which is why
the state is consumed read-only. -/
def getStatus (cfg : Config) (now : Nat) (st : ObservedState) : StatusSnapshot :=
  ⟨cfg.requestInterval, cfg.apiUrl, cfg.notifyOnChangeOnly,
    match st.lastResponse with
    | some _ => .shown now
    | none => .noDataYet⟩

/-- State after one poll cycle (the state component of
`pollHttpEndpoint`). -/
def cycleState (st : ObservedState) (fetch : FetchResult) (sendOk : Bool) :
    ObservedState :=
  (pollHttpEndpoint st fetch sendOk).state

/-- Sequential execution of a list of poll cycles, each given by its
fetch outcome and the result of its (possible) Telegram delivery. -/
def runCycles (st : ObservedState) : List (FetchResult × Bool) → ObservedState
  | [] => st
  | (f, ok) :: fs => runCycles (cycleState st f ok) fs

/-- The candidate document a fetch outcome delivers to the commit at
src/index.js lines 137-139, when it delivers one. -/
def candidateOf (fetch : FetchResult) : Option Doc :=
  match fetch with
  | .success body => extractCandidate body
  | .httpError _ => none
  | .transportError => none

/-- Later candidate wins: keeps the second option when it is present,
the first otherwise. -/
def overrideWith (o1 o2 : Option Doc) : Option Doc :=
  match o2 with
  | some d => some d
  | none => o1

/-- The candidate document of the most recent cycle of the list that
committed one. -/
def lastCandidate : List (FetchResult × Bool) → Option Doc
  | [] => none
  | (f, _) :: fs => overrideWith (candidateOf f) (lastCandidate fs)

/-- The state reached after committing an optional candidate on top of a
given state: the commit overwrites both fields together. -/
def absorb (st : ObservedState) : Option Doc → ObservedState
  | none => st
  | some d => ⟨d.id, some d⟩

/-!
Interleaving model for overlapping invocations of `pollHttpEndpoint`.

`pollHttpEndpoint` is an `async` function whose body suspends at two
`await` points: the `axios.get` call (line 108) and, only when a change
was detected, the `sendTelegramMessage` call (line 134).  Between two
suspensions the body runs atomically on the single JavaScript thread.
Nothing in the source prevents the scheduled job (line 223) and the
`/check` command (line 194) from each having an invocation in flight at
the same time, so the segments of two invocations can interleave at the
suspension points.  A phase records where one invocation currently is.
-/

/-- Execution phase of one in-flight invocation of `pollHttpEndpoint`:
waiting for its HTTP response, waiting for its Telegram delivery after
having evaluated `hasChanged = true` for document `d` (the commit has not
run yet), or returned. -/
inductive CyclePhase where
  | awaitFetch (fetch : FetchResult)
  | awaitSend (d : Doc)
  | finished (notified : Bool)
deriving DecidableEq, Repr

/-- Run the next atomic segment of one invocation against the shared
state.  Resuming from the fetch runs lines 113-135 in one segment: an
error path ends the invocation; a changed candidate suspends again at the
`sendTelegramMessage` await, before the commit; an unchanged candidate
falls through to the commit in the same segment.  Resuming from the send
runs the commit of lines 137-139. -/
def phaseStep (st : ObservedState) : CyclePhase → ObservedState × CyclePhase
  | .awaitFetch fetch =>
    match fetch with
    | .success body =>
      match extractCandidate body with
      | some d =>
        if d.id != st.lastResponseId then (st, .awaitSend d)
        else (⟨d.id, some d⟩, .finished false)
      | none => (st, .finished false)
    | .httpError _ => (st, .finished false)
    | .transportError => (st, .finished false)
  | .awaitSend d => (⟨d.id, some d⟩, .finished true)
  | .finished b => (st, .finished b)

/-- Shared state plus the phases of two concurrently triggered
invocations (one scheduled, one on-demand). -/
structure SystemState where
  observed : ObservedState
  cycle1 : CyclePhase
  cycle2 : CyclePhase
deriving DecidableEq, Repr

/-- Whether an invocation has returned. -/
def phaseFinished : CyclePhase → Bool
  | .finished _ => true
  | _ => false

/-- One event-loop turn: the boolean picks which invocation's pending
continuation to run; when the picked one has already returned, the other
one runs instead (the event loop runs whatever is ready). -/
def sysStep (sys : SystemState) (pickFirst : Bool) : SystemState :=
  if pickFirst && !phaseFinished sys.cycle1
      || !pickFirst && phaseFinished sys.cycle2 then
    let p := phaseStep sys.observed sys.cycle1
    ⟨p.1, p.2, sys.cycle2⟩
  else
    let p := phaseStep sys.observed sys.cycle2
    ⟨p.1, sys.cycle1, p.2⟩

/-- Run a finite schedule of event-loop turns. -/
def runSystem (sys : SystemState) : List Bool → SystemState
  | [] => sys
  | b :: bs => runSystem (sysStep sys b) bs

/-- A four-turn schedule encoded in the bits of a number below 16. -/
def decodeSched (n : Nat) : List Bool :=
  [n.testBit 0, n.testBit 1, n.testBit 2, n.testBit 3]

/-- The example document of the spec scenarios: `{id: "r1", value: 10}`. -/
def docR1 : Doc := ⟨JSVal.vstr "r1", JSVal.vnum 10⟩

/-- A response body whose `data` array holds exactly `docR1`. -/
def bodyR1 : ResponseBody := ⟨some [docR1]⟩

/-- Two overlapping invocations that both just issued a GET which will
return `docR1`, starting from the empty initial state. -/
def overlapStart : SystemState :=
  ⟨initialState, .awaitFetch (.success bodyR1), .awaitFetch (.success bodyR1)⟩

/-- A configuration with every field present, used in concrete
instantiations. -/
def cfgR1 : Config := ⟨some "http://x", some "tok", some "chat", 300, true⟩

/-- The state after one successful poll of `docR1` from the initial
state. -/
def stAfterR1 : ObservedState := cycleState initialState (.success bodyR1) true

/-- A configuration where only the target URL is set. -/
def urlOnlyConfig : Config := ⟨some "http://x", none, none, 300, true⟩

/-- A configuration where nothing is set, in particular no target URL. -/
def noUrlConfig : Config := ⟨none, none, none, 300, true⟩

/-!  Helper lemmas shared by the claim theorems. -/

/-- A successful fetch whose body carries at least one document always
commits the head document and its id, whether or not a change was
detected. -/
theorem poll_success_state (st : ObservedState) (d : Doc) (rest : List Doc)
    (ok : Bool) :
    (pollHttpEndpoint st (.success ⟨some (d :: rest)⟩) ok).state = ⟨d.id, some d⟩ := by
  simp only [pollHttpEndpoint, extractCandidate]
  split <;> rfl

/-- The result returned by `sendTelegramMessage` is discarded by
`pollHttpEndpoint`, so the whole cycle result is independent of it. -/
theorem poll_sendOk_irrelevant (st : ObservedState) (fetch : FetchResult)
    (a b : Bool) :
    pollHttpEndpoint st fetch a = pollHttpEndpoint st fetch b := rfl

/-- One cycle's state is the previous state with the cycle's candidate
(if any) absorbed. -/
theorem cycleState_eq_absorb (st : ObservedState) (f : FetchResult) (ok : Bool) :
    cycleState st f ok = absorb st (candidateOf f) := by
  cases f with
  | success body =>
    cases hb : extractCandidate body with
    | none => simp [cycleState, pollHttpEndpoint, candidateOf, hb, absorb]
    | some d =>
      simp only [cycleState, pollHttpEndpoint, candidateOf, hb, absorb]
      split <;> rfl
  | httpError s => rfl
  | transportError => rfl

/-- Absorbing twice keeps the later candidate when there is one. -/
theorem absorb_absorb (st : ObservedState) (o1 o2 : Option Doc) :
    absorb (absorb st o1) o2 = absorb st (overrideWith o1 o2) := by
  cases o2 <;> rfl

/-- A run of cycles ends in the start state with the most recent
committed candidate absorbed. -/
theorem runCycles_eq_absorb (fs : List (FetchResult × Bool)) (st : ObservedState) :
    runCycles st fs = absorb st (lastCandidate fs) := by
  induction fs generalizing st with
  | nil => rfl
  | cons p fs ih =>
    obtain ⟨f, ok⟩ := p
    show runCycles (cycleState st f ok) fs = _
    rw [ih, cycleState_eq_absorb, absorb_absorb]
    rfl

/-!  Claim theorems. -/

/-- C1: change detection is by identifier equality only.  After a cycle
committing document `A`, a cycle evaluating document `B` yields
`unchanged` (and sends nothing) when `A.id = B.id`, and `changed` (and
invokes the notifier) when `A.id ≠ B.id`, whatever the other fields of
either document are and whatever state the run started from. -/
theorem change_detection_by_id_only (st : ObservedState) (A B : Doc)
    (restA restB : List Doc) (ok1 ok2 : Bool) :
    (A.id = B.id →
      pollHttpEndpoint (cycleState st (.success ⟨some (A :: restA)⟩) ok1)
        (.success ⟨some (B :: restB)⟩) ok2
        = ⟨⟨B.id, some B⟩, .unchanged, false⟩) ∧
    (A.id ≠ B.id →
      pollHttpEndpoint (cycleState st (.success ⟨some (A :: restA)⟩) ok1)
        (.success ⟨some (B :: restB)⟩) ok2
        = ⟨⟨B.id, some B⟩, .changed, true⟩) := by
  have hst : cycleState st (.success ⟨some (A :: restA)⟩) ok1 = ⟨A.id, some A⟩ :=
    poll_success_state st A restA ok1
  rw [hst]
  constructor
  · intro h
    simp [pollHttpEndpoint, extractCandidate, h]
  · intro h
    have h' : B.id ≠ A.id := fun hba => h hba.symm
    simp [pollHttpEndpoint, extractCandidate, h']

/-- Witness for C1 at concrete documents sharing an id but differing in
the other field, and at documents with distinct ids. -/
theorem change_detection_by_id_only_witness :
    (pollHttpEndpoint
        (cycleState initialState
          (.success ⟨some [⟨JSVal.vstr "a", JSVal.vnum 1⟩]⟩) true)
        (.success ⟨some [⟨JSVal.vstr "a", JSVal.vnum 2⟩]⟩) true
        = ⟨⟨JSVal.vstr "a", some ⟨JSVal.vstr "a", JSVal.vnum 2⟩⟩, .unchanged, false⟩) ∧
    (pollHttpEndpoint
        (cycleState initialState
          (.success ⟨some [⟨JSVal.vstr "a", JSVal.vnum 1⟩]⟩) true)
        (.success ⟨some [⟨JSVal.vstr "b", JSVal.vnum 1⟩]⟩) true
        = ⟨⟨JSVal.vstr "b", some ⟨JSVal.vstr "b", JSVal.vnum 1⟩⟩, .changed, true⟩) :=
  ⟨(change_detection_by_id_only initialState ⟨JSVal.vstr "a", JSVal.vnum 1⟩
      ⟨JSVal.vstr "a", JSVal.vnum 2⟩ [] [] true true).1 rfl,
   (change_detection_by_id_only initialState ⟨JSVal.vstr "a", JSVal.vnum 1⟩
      ⟨JSVal.vstr "b", JSVal.vnum 1⟩ [] [] true true).2 (by decide)⟩

/-- C2: a cycle whose fetch ends in a non-200 status, a thrown transport
error, or a malformed body leaves the observed state exactly as it was
and never invokes the notifier. -/
theorem failed_fetch_preserves_state (st : ObservedState) (status : Nat)
    (ok : Bool) (body : ResponseBody) (hbad : extractCandidate body = none) :
    pollHttpEndpoint st (.httpError status) ok = ⟨st, .error, false⟩ ∧
    pollHttpEndpoint st .transportError ok = ⟨st, .error, false⟩ ∧
    pollHttpEndpoint st (.success body) ok = ⟨st, .error, false⟩ := by
  refine ⟨rfl, rfl, ?_⟩
  simp [pollHttpEndpoint, hbad]

/-- Witness for C2 at a non-initial concrete state, a 500 status and an
empty data array. -/
theorem failed_fetch_preserves_state_witness :
    pollHttpEndpoint ⟨JSVal.vstr "r1", some docR1⟩ (.httpError 500) true
      = ⟨⟨JSVal.vstr "r1", some docR1⟩, .error, false⟩ ∧
    pollHttpEndpoint ⟨JSVal.vstr "r1", some docR1⟩ .transportError true
      = ⟨⟨JSVal.vstr "r1", some docR1⟩, .error, false⟩ ∧
    pollHttpEndpoint ⟨JSVal.vstr "r1", some docR1⟩ (.success ⟨some []⟩) true
      = ⟨⟨JSVal.vstr "r1", some docR1⟩, .error, false⟩ :=
  failed_fetch_preserves_state ⟨JSVal.vstr "r1", some docR1⟩ 500 true ⟨some []⟩ rfl

/-- C3 counterexample: a first successful poll does not always notify.
The initial `lastResponseId` is the JavaScript `null`, so the very first
cycle evaluating a document whose `id` field is itself `null` computes
`hasChanged = (null !== null) = false`: the outcome is `unchanged` and
no notification is ever sent for it, contradicting the claim that every
candidate document triggers a notification on the first successful
poll. -/
theorem first_cycle_null_id_skips_notification :
    pollHttpEndpoint initialState (.success ⟨some [⟨JSVal.vnull, JSVal.vnum 1⟩]⟩) true
      = ⟨⟨JSVal.vnull, some ⟨JSVal.vnull, JSVal.vnum 1⟩⟩, .unchanged, false⟩ := by
  decide

/-- C3 (amended): from the empty initial state, a successful fetch whose
candidate's id differs from the JavaScript `null` yields `changed = true`
and a notification on the first cycle, and a repeat of the same document
on the next cycle yields `changed = false` with no further notification,
so such a document is notified exactly once. -/
theorem first_cycle_notifies_nonnull_id (d : Doc) (rest : List Doc)
    (ok1 ok2 : Bool) (h : d.id ≠ JSVal.vnull) :
    pollHttpEndpoint initialState (.success ⟨some (d :: rest)⟩) ok1
      = ⟨⟨d.id, some d⟩, .changed, true⟩ ∧
    pollHttpEndpoint ⟨d.id, some d⟩ (.success ⟨some (d :: rest)⟩) ok2
      = ⟨⟨d.id, some d⟩, .unchanged, false⟩ := by
  constructor
  · simp [pollHttpEndpoint, extractCandidate, initialState, h]
  · simp [pollHttpEndpoint, extractCandidate]

/-- Witness for C3 (amended) at the spec's scenario-1 document
`{id: "r1", value: 10}`. -/
theorem first_cycle_notifies_nonnull_id_witness :
    pollHttpEndpoint initialState (.success ⟨some [docR1]⟩) true
      = ⟨⟨docR1.id, some docR1⟩, .changed, true⟩ ∧
    pollHttpEndpoint ⟨docR1.id, some docR1⟩ (.success ⟨some [docR1]⟩) true
      = ⟨⟨docR1.id, some docR1⟩, .unchanged, false⟩ :=
  first_cycle_notifies_nonnull_id docR1 [] true true (by decide)

/-- C4: a successful fetch that evaluates to `changed = false` sends no
notification yet still overwrites both stored fields with the new
candidate document and its key. -/
theorem unchanged_cycle_still_commits (st : ObservedState) (d : Doc)
    (rest : List Doc) (ok : Bool) (h : d.id = st.lastResponseId) :
    pollHttpEndpoint st (.success ⟨some (d :: rest)⟩) ok
      = ⟨⟨d.id, some d⟩, .unchanged, false⟩ := by
  simp [pollHttpEndpoint, extractCandidate, h]

/-- Witness for C4 at the spec's scenario 2: after `{id: "r1", value: 10}`
is stored, polling `{id: "r1", value: 99}` is unchanged but the stored
payload's value becomes 99. -/
theorem unchanged_cycle_still_commits_witness :
    pollHttpEndpoint ⟨JSVal.vstr "r1", some docR1⟩
      (.success ⟨some [⟨JSVal.vstr "r1", JSVal.vnum 99⟩]⟩) true
      = ⟨⟨JSVal.vstr "r1", some ⟨JSVal.vstr "r1", JSVal.vnum 99⟩⟩, .unchanged, false⟩ :=
  unchanged_cycle_still_commits ⟨JSVal.vstr "r1", some docR1⟩
    ⟨JSVal.vstr "r1", JSVal.vnum 99⟩ [] true rfl

/-- C5: notifier failure does not block the commit.  `sendTelegramMessage`
returns `false` instead of raising when the API call fails, the whole
cycle result is the same whether the send reported success or failure,
and on a changed successful fetch the commit of the candidate and its key
takes place either way. -/
theorem notifier_failure_does_not_block_commit (st : ObservedState)
    (fetch : FetchResult) (botInit : Bool) (chatId : Option String)
    (d : Doc) (rest : List Doc) (hfetch : fetch = .success ⟨some (d :: rest)⟩) :
    sendTelegramMessage botInit chatId false = false ∧
    pollHttpEndpoint st fetch false = pollHttpEndpoint st fetch true ∧
    (pollHttpEndpoint st fetch false).state = ⟨d.id, some d⟩ := by
  refine ⟨?_, rfl, ?_⟩
  · simp [sendTelegramMessage]
  · rw [hfetch]
    exact poll_success_state st d rest false

/-- Witness for C5: a changed cycle for `{id: "r1", value: 10}` commits
the document even though the Telegram delivery failed. -/
theorem notifier_failure_does_not_block_commit_witness :
    sendTelegramMessage true (some "chat") false = false ∧
    pollHttpEndpoint initialState (.success ⟨some [docR1]⟩) false
      = pollHttpEndpoint initialState (.success ⟨some [docR1]⟩) true ∧
    (pollHttpEndpoint initialState (.success ⟨some [docR1]⟩) false).state
      = ⟨docR1.id, some docR1⟩ :=
  notifier_failure_does_not_block_commit initialState (.success ⟨some [docR1]⟩)
    true (some "chat") docR1 [] rfl

/-- C6: a 200 response whose body lacks the `data` array or carries an
empty one ends the cycle as an error: the state is untouched and no
notification is sent.  The thrown TypeError is caught by the catch block
of `pollHttpEndpoint`, which is modelled by the cycle being a total
function into `CycleResult`: no error propagates past the cycle. -/
theorem malformed_payload_is_error (st : ObservedState) (ok : Bool) :
    pollHttpEndpoint st (.success ⟨none⟩) ok = ⟨st, .error, false⟩ ∧
    pollHttpEndpoint st (.success ⟨some []⟩) ok = ⟨st, .error, false⟩ :=
  ⟨rfl, rfl⟩

/-- C7 (bug evaluation): the `/status` reply does carry the configured
interval, target URL and notify-on-change flag, and shows the no-data
indicator exactly until a successful poll stores a payload; but the
last-update line renders the clock at the moment of the query, not a
stored timestamp of the last successful update.  Concretely: after a
single successful poll, two status queries at times 9 and 11 with no poll
between them report the two different times 9 and 11 as the last update,
which a genuine stored update timestamp could not do — the program never
records the time of any poll. -/
theorem status_last_update_is_query_time :
    getStatus cfgR1 9 initialState = ⟨300, some "http://x", true, .noDataYet⟩ ∧
    getStatus cfgR1 9 stAfterR1 = ⟨300, some "http://x", true, .shown 9⟩ ∧
    getStatus cfgR1 11 stAfterR1 = ⟨300, some "http://x", true, .shown 11⟩ ∧
    LastUpdateField.shown 9 ≠ LastUpdateField.shown 11 := by
  decide

/-- C8 counterexample: with no target URL configured (and nothing else
either), `main` still attempts a poll cycle — the startup trace performs
the initial poll, refuting that the core refuses to start without a
URL. -/
theorem poll_attempted_without_url :
    StartupAction.poll ∈ mainTrace noUrlConfig ∧
    mainTrace noUrlConfig = [StartupAction.poll, StartupAction.scheduleSetup] := by
  decide

/-- C8 (amended): `main` never examines the target URL — for every
configuration it attempts the first poll cycle and installs the
recurring schedule; when the bot token is missing, polling still
proceeds and every notification attempt degrades to a logged `false`
from `sendTelegramMessage`. -/
theorem polling_proceeds_without_url (cfg : Config) (apiOk : Bool)
    (hno : cfg.telegramBotToken = none) :
    StartupAction.poll ∈ mainTrace cfg ∧
    StartupAction.scheduleSetup ∈ mainTrace cfg ∧
    sendTelegramMessage cfg.telegramBotToken.isSome cfg.telegramChatId apiOk
      = false := by
  refine ⟨?_, ?_, ?_⟩
  · simp [mainTrace]
  · simp [mainTrace]
  · rw [hno]
    rfl

/-- Witness for C8 (amended) at a configuration holding only a URL. -/
theorem polling_proceeds_without_url_witness :
    StartupAction.poll ∈ mainTrace urlOnlyConfig ∧
    StartupAction.scheduleSetup ∈ mainTrace urlOnlyConfig ∧
    sendTelegramMessage urlOnlyConfig.telegramBotToken.isSome
      urlOnlyConfig.telegramChatId true = false :=
  polling_proceeds_without_url urlOnlyConfig true rfl

/-- C9 counterexample: nothing serializes overlapping cycles.  Two
invocations that both fetched `{id: "r1", value: 10}` from the empty
initial state, interleaved at their await points by the schedule
first-second-first-second, BOTH run to completion and BOTH send a
notification for the same document: the second invocation's evaluate runs
between the first invocation's evaluate and commit, so neither is
rejected nor dropped and their evaluate/commit steps do interleave.  Under
a non-overlapping schedule (first invocation entirely before the second)
the same two fetches produce exactly one notification, showing the
interleaving is observable. -/
theorem overlapping_cycles_interleave :
    runSystem overlapStart [true, false, true, false]
      = ⟨⟨JSVal.vstr "r1", some docR1⟩, .finished true, .finished true⟩ ∧
    runSystem overlapStart [true, true, false, false]
      = ⟨⟨JSVal.vstr "r1", some docR1⟩, .finished true, .finished false⟩ := by
  decide

/-- C9 (amended): the source holds no execution lock; overlapping
scheduled and on-demand invocations are never rejected or dropped — under
every four-turn event-loop schedule both overlapping invocations of the
poll cycle run to completion. -/
theorem overlapping_cycles_both_run_to_completion :
    ∀ n : Fin 16,
      phaseFinished (runSystem overlapStart (decodeSched n.val)).cycle1 = true ∧
      phaseFinished (runSystem overlapStart (decodeSched n.val)).cycle2 = true := by
  decide

/-- C10: after any finite sequence of poll cycles the observed state is
either still the initial pair (null, null) or exactly the pair
(candidate.id, candidate) for the candidate document of the most recent
cycle that committed one: the two fields are only ever written together,
in that pairing, and failed cycles write nothing. -/
theorem state_pair_coupling (fs : List (FetchResult × Bool)) :
    (lastCandidate fs = none → runCycles initialState fs = initialState) ∧
    (∀ d : Doc, lastCandidate fs = some d →
      runCycles initialState fs = ⟨d.id, some d⟩) := by
  constructor
  · intro h
    rw [runCycles_eq_absorb, h]
    rfl
  · intro d h
    rw [runCycles_eq_absorb, h]
    rfl

/-- Witness for C10 on a run of a successful cycle followed by a failed
one: the state is the pair of the successful cycle's document and id. -/
theorem state_pair_coupling_witness :
    runCycles initialState [(.success bodyR1, true), (.httpError 500, true)]
      = ⟨docR1.id, some docR1⟩ :=
  (state_pair_coupling [(.success bodyR1, true), (.httpError 500, true)]).2
    docR1 rfl

end TgNotify
